import Mathlib

/-!
Verification development for the search-behavior-analysis-collector
client-side telemetry library.  The definitions below are a shallow
embedding of `src/tracker.js` (the `SearchBehaviorAnalysisCollector`
class); browser state (localStorage, the clock, UUID generation, and
the network transport) is passed explicitly, and the asynchronous send
is decomposed into its swap phase, the pushes that arrive while the
send is in flight, and the settle phase that runs when the transport
reports its outcome.
-/

namespace SBAC

/-! ## Configuration (constructor, tracker.js lines 2-15)

JS `config.x || default` substitutes the default for any falsy value:
for strings the empty string, for the numeric options the number 0.
`performanceMetricsEnabled` alone uses `!== false`.  Raw options are
`Option`-valued: `none` is an absent key. -/

structure RawConfig where
  endpoint : Option String := none
  metricsEndpoint : Option String := none
  selector : Option String := none
  dataAttribute : Option String := none
  searchRequestIdAttribute : Option String := none
  sessionTimeout : Option Nat := none
  batchSize : Option Nat := none
  sendInterval : Option Nat := none
  sessionId : Option String := none
  searchRequestId : Option String := none
  performanceMetricsEnabled : Option Bool := none
deriving Repr

/-- JS `v || d` for a string-valued option: `undefined` and `""` are falsy. -/
def jsOrString (v : Option String) (d : String) : String :=
  match v with
  | some s => if s = "" then d else s
  | none => d

/-- JS `v || d` for a number-valued option: `undefined` and `0` are falsy. -/
def jsOrNat (v : Option Nat) (d : Nat) : Nat :=
  match v with
  | some n => if n = 0 then d else n
  | none => d

/-- JS `v || null` for the injected ids: a falsy value becomes `null`. -/
def jsOrNull (v : Option String) : Option String :=
  match v with
  | some s => if s = "" then none else some s
  | none => none

/-- JS `config.performanceMetricsEnabled !== false` (tracker.js line 14). -/
def jsNeqFalse (v : Option Bool) : Bool :=
  match v with
  | some false => false
  | _ => true

structure Config where
  endpoint : String
  metricsEndpoint : String
  selector : String
  dataAttribute : String
  searchRequestIdAttribute : String
  sessionTimeout : Nat
  batchSize : Nat
  sendInterval : Nat
  sessionId : Option String
  searchRequestId : Option String
  performanceMetricsEnabled : Bool
deriving Repr

/-- The config normalisation performed by the constructor
(tracker.js lines 2-15). -/
def mkConfig (c : RawConfig) : Config where
  endpoint := jsOrString c.endpoint "/api/track"
  metricsEndpoint := jsOrString c.metricsEndpoint "/api/metrics"
  selector := jsOrString c.selector ".trackable-item"
  dataAttribute := jsOrString c.dataAttribute "data-item-id"
  searchRequestIdAttribute :=
    jsOrString c.searchRequestIdAttribute "data-search-request-id"
  sessionTimeout := jsOrNat c.sessionTimeout (30 * 60 * 1000)
  batchSize := jsOrNat c.batchSize 10
  sendInterval := jsOrNat c.sendInterval 10000
  sessionId := jsOrNull c.sessionId
  searchRequestId := jsOrNull c.searchRequestId
  performanceMetricsEnabled := jsNeqFalse c.performanceMetricsEnabled

/-! ## Events and the event queue (tracker.js lines 333-357) -/

/-- A queued event: `trackEvent` pushes a `custom_event` record with the
event name, payload, session id and timestamp (tracker.js lines 334-340);
`trackClick` pushes a `click` record spreading the click payload and the
session id (tracker.js lines 348-352). -/
inductive Event where
  | custom (name : String) (data : String) (sessionId : String) (timestamp : Nat)
  | click (clickData : String) (sessionId : String)
deriving DecidableEq, Repr

/-! ## The in-flight send (tracker.js lines 359-408)

`sendEvents` copies the queue into `eventsToSend` and resets
`this.events` to `[]` before any transport work (lines 362-363).  While
the `await` is pending, tracking calls push onto the new live queue.
The settle phase then runs one of five outcomes:
  - beacon returned `true`, or `response.ok`: the live queue is left alone;
  - beacon returned `false` (line 382) or `!response.ok` (line 397): the
    batch is prepended (line 384 resp. 399) and an `Error` is thrown,
    which the surrounding `catch` catches and prepends the batch a
    second time (line 406);
  - the `fetch` call itself rejected: only the `catch` prepend runs
    (line 406). -/

inductive SendOutcome where
  | beaconSuccess
  | beaconFailure
  | fetchOk
  | fetchNotOk
  | fetchRejected
deriving DecidableEq, Repr

structure EvInFlight where
  batch : List Event
  live : List Event
deriving DecidableEq, Repr

/-- Swap phase of `sendEvents` (tracker.js lines 362-363):
`eventsToSend = [...this.events]; this.events = []`. -/
def sendEventsSwap (events : List Event) : EvInFlight :=
  { batch := events, live := [] }

/-- A tracking call arriving while the send is in flight pushes onto the
live queue (tracker.js line 334 / 348). -/
def pushEventInFlight (s : EvInFlight) (e : Event) : EvInFlight :=
  { s with live := s.live ++ [e] }

def pushEventsInFlight (s : EvInFlight) (es : List Event) : EvInFlight :=
  es.foldl pushEventInFlight s

/-- Settle phase of `sendEvents` (tracker.js lines 374-407), giving the
final value of `this.events` for each transport outcome. -/
def sendEventsSettle (s : EvInFlight) : SendOutcome → List Event
  | .beaconSuccess => s.live
  | .beaconFailure => s.batch ++ (s.batch ++ s.live)
  | .fetchOk => s.live
  | .fetchNotOk => s.batch ++ (s.batch ++ s.live)
  | .fetchRejected => s.batch ++ s.live

/-- A whole run of `sendEvents`: the empty-queue guard (line 360), the
swap, the pushes that arrive during the transport call, and the settle. -/
def sendEventsRun (events arrivals : List Event) (o : SendOutcome) :
    List Event :=
  if events.length = 0 then events ++ arrivals
  else sendEventsSettle (pushEventsInFlight (sendEventsSwap events) arrivals) o

/-! ## Performance metrics and the metric queue
(tracker.js lines 174-218) -/

structure PerfMetric where
  mtype : String
  value : ℚ
  timestamp : Nat
  sessionId : String
deriving DecidableEq, Repr

/-- Metric fetch outcomes: `sendPerformanceMetrics` has no beacon branch. -/
inductive MetricOutcome where
  | fetchOk
  | fetchNotOk
  | fetchRejected
deriving DecidableEq, Repr

structure PmInFlight where
  batch : List PerfMetric
  live : List PerfMetric
deriving DecidableEq, Repr

/-- Swap phase of `sendPerformanceMetrics` (tracker.js lines 188-189). -/
def sendPerformanceMetricsSwap (metrics : List PerfMetric) : PmInFlight :=
  { batch := metrics, live := [] }

def pushMetricInFlight (s : PmInFlight) (m : PerfMetric) : PmInFlight :=
  { s with live := s.live ++ [m] }

def pushMetricsInFlight (s : PmInFlight) (ms : List PerfMetric) : PmInFlight :=
  ms.foldl pushMetricInFlight s

/-- Settle phase of `sendPerformanceMetrics` (tracker.js lines 199-217):
on `!response.ok` the batch is prepended (line 210) and the throw at
line 211 lands in the `catch`, which prepends it again (line 216); a
rejected `fetch` runs only the `catch` prepend. -/
def sendPerformanceMetricsSettle (s : PmInFlight) :
    MetricOutcome → List PerfMetric
  | .fetchOk => s.live
  | .fetchNotOk => s.batch ++ (s.batch ++ s.live)
  | .fetchRejected => s.batch ++ s.live

/-- A whole run of `sendPerformanceMetrics` (tracker.js lines 185-218). -/
def sendPerformanceMetricsRun (metrics arrivals : List PerfMetric)
    (o : MetricOutcome) : List PerfMetric :=
  if metrics.length = 0 then metrics ++ arrivals
  else
    sendPerformanceMetricsSettle
      (pushMetricsInFlight (sendPerformanceMetricsSwap metrics) arrivals) o

/-! ## Tracking calls and size-triggered flush
(tracker.js lines 333-357) -/

/-- The `trackEvent` body: push the event, then flush if the queue
length reached `batchSize` (checked after the append, lines 342-344).
The flush runs with no in-flight arrivals and the given outcome. -/
def trackEvent (cfg : Config) (sid : String) (now : Nat)
    (events : List Event) (name data : String) (o : SendOutcome) :
    List Event :=
  let q := events ++ [Event.custom name data sid now]
  if cfg.batchSize ≤ q.length then sendEventsRun q [] o else q

/-- The `trackClick` body (tracker.js lines 347-357). -/
def trackClick (cfg : Config) (sid : String) (events : List Event)
    (clickData : String) (o : SendOutcome) : List Event :=
  let q := events ++ [Event.click clickData sid]
  if cfg.batchSize ≤ q.length then sendEventsRun q [] o else q

/-- One element of a sequence of tracking calls. -/
inductive TrackCall where
  | ev (name data : String) (now : Nat)
  | click (clickData : String)
deriving DecidableEq, Repr

/-- The event a tracking call pushes onto the queue. -/
def callEvent (sid : String) : TrackCall → Event
  | .ev n d t => .custom n d sid t
  | .click c => .click c sid

def trackStep (cfg : Config) (sid : String) (events : List Event) :
    TrackCall → List Event
  | .ev n d t => trackEvent cfg sid t events n d .fetchOk
  | .click c => trackClick cfg sid events c .fetchOk

/-- Run a sequence of `trackEvent`/`trackClick` calls (successful
transport). -/
def trackAll (cfg : Config) (sid : String) (calls : List TrackCall)
    (events : List Event) : List Event :=
  calls.foldl (trackStep cfg sid) events

/-! ## Session lifecycle (tracker.js lines 220-245, 410-431)

`localStorage` is modelled as the three keys the collector touches;
timestamps are milliseconds-since-epoch (`new Date().getTime()` on the
stored ISO string).  The fresh UUID that `generateUUID` would produce
is passed in as `freshId`. -/

structure Store where
  sessionId : Option String := none
  sessionTimestamp : Option Nat := none
  colorIdentifier : Option String := none
deriving DecidableEq, Repr

/-- The pair of `setItem` calls that persist a session id with a fresh
timestamp (tracker.js lines 223-224 / 242-243). -/
def persistSession (st : Store) (sid : String) (now : Nat) : Store :=
  { st with sessionId := some sid, sessionTimestamp := some now }

/-- The non-injected branch of `getOrCreateSessionId` (tracker.js lines
228-244): read the persisted id and timestamp; if both are truthy and
`now - timestamp < sessionTimeout`, reuse the stored id; otherwise
generate a fresh id and persist it with a fresh timestamp. -/
def getOrCreateFromStore (sessionTimeout : Nat) (st : Store) (now : Nat)
    (freshId : String) : String × Store :=
  match st.sessionId, st.sessionTimestamp with
  | some sid, some ts =>
      if sid = "" then
        (freshId, persistSession st freshId now)
      else if (now : Int) - (ts : Int) < (sessionTimeout : Int) then
        (sid, st)
      else
        (freshId, persistSession st freshId now)
  | _, _ =>
      (freshId, persistSession st freshId now)

/-- `getOrCreateSessionId` (tracker.js lines 220-245): a truthy injected
`config.sessionId` is persisted with a fresh timestamp and returned
unconditionally; otherwise the stored session is consulted. -/
def getOrCreateSessionId (cfgSessionId : Option String) (sessionTimeout : Nat)
    (st : Store) (now : Nat) (freshId : String) : String × Store :=
  match cfgSessionId with
  | some s =>
      if s = "" then getOrCreateFromStore sessionTimeout st now freshId
      else (s, persistSession st s now)
  | none => getOrCreateFromStore sessionTimeout st now freshId

/-- `resetSession` (tracker.js lines 410-414): remove the persisted id
and timestamp, then re-run the derivation. -/
def resetSession (cfgSessionId : Option String) (sessionTimeout : Nat)
    (st : Store) (now : Nat) (freshId : String) : String × Store :=
  getOrCreateSessionId cfgSessionId sessionTimeout
    { st with sessionId := none, sessionTimestamp := none } now freshId

/-- `checkSessionExpiration` (tracker.js lines 417-425): if a timestamp
is persisted and `now - timestamp >= sessionTimeout`, reset the session;
otherwise leave the current session id and store untouched. -/
def checkSessionExpiration (cfgSessionId : Option String)
    (sessionTimeout : Nat) (sessionId : String) (st : Store) (now : Nat)
    (freshId : String) : String × Store :=
  match st.sessionTimestamp with
  | some ts =>
      if (sessionTimeout : Int) ≤ (now : Int) - (ts : Int) then
        resetSession cfgSessionId sessionTimeout st now freshId
      else (sessionId, st)
  | none => (sessionId, st)

/-- Collector state for operations that touch both the event queue and
the session. -/
structure CollectorState where
  events : List Event
  sessionId : String
  store : Store
deriving DecidableEq, Repr

/-- `trackConversion` (tracker.js lines 428-431): track a `conversion`
custom event, then reset the session. -/
def trackConversion (cfg : Config) (cs : CollectorState) (data : String)
    (now : Nat) (freshId : String) (o : SendOutcome) : CollectorState :=
  let events1 := trackEvent cfg cs.sessionId now cs.events "conversion" data o
  let r := resetSession cfg.sessionId cfg.sessionTimeout cs.store now freshId
  { events := events1, sessionId := r.1, store := r.2 }

/-! ## Context snapshot and navigation tracking
(tracker.js lines 40-75, 320-331) -/

/-- The browser environment read by `getBrowserInfo`. -/
structure Env where
  userAgent : String
  language : String
  hostname : String
  pathname : String
deriving DecidableEq, Repr

/-- The slice of the `getBrowserInfo` snapshot (tracker.js lines 40-75)
that depends on the environment regenerated on navigation. -/
structure BrowserInfo where
  userAgent : String
  language : String
  domain : String
  path : String
  timestamp : Nat
deriving DecidableEq, Repr

def getBrowserInfo (env : Env) (now : Nat) : BrowserInfo :=
  { userAgent := env.userAgent
    language := env.language
    domain := env.hostname
    path := env.pathname
    timestamp := now }

/-- Navigation-tracker state: the stored `currentPath`, the context
snapshot, and the generation counter of the performance observers
(`setupPerformanceObserver` disconnects the previous generation and
installs a new one, tracker.js lines 77-82). -/
structure NavState where
  currentPath : String
  browserInfo : BrowserInfo
  observerGen : Nat
deriving DecidableEq, Repr

/-- `setupPerformanceObserver` as it affects the observer generation:
existing observers are disconnected and a fresh set installed. -/
def setupPerformanceObserver (gen : Nat) : Nat := gen + 1

/-- `handlePathChange` (tracker.js lines 320-331): compare the browser
path with `currentPath`; if different, update it, regenerate the
snapshot, and (when performance metrics are enabled) reset the
observers; otherwise do nothing. -/
def handlePathChange (enabled : Bool) (env : Env) (now : Nat)
    (st : NavState) : NavState :=
  if env.pathname ≠ st.currentPath then
    { currentPath := env.pathname
      browserInfo := getBrowserInfo env now
      observerGen :=
        if enabled then setupPerformanceObserver st.observerGen
        else st.observerGen }
  else st

/-! ## The CLS observer callback (tracker.js lines 126-138) -/

structure LayoutShiftEntry where
  value : ℚ
  hadRecentInput : Bool
deriving DecidableEq, Repr

/-- The CLS accumulation loop (tracker.js lines 127-133): sum `value`
over the batch, skipping entries with `hadRecentInput`. -/
def clsValue (entries : List LayoutShiftEntry) : ℚ :=
  entries.foldl
    (fun acc e => if e.hadRecentInput then acc else acc + e.value) 0

/-- The metric data the CLS callback passes to `trackPerformanceMetric`
(tracker.js lines 134-137); it is emitted unconditionally, once per
callback invocation. -/
def clsCallbackMetric (entries : List LayoutShiftEntry)
    (now : Nat) (sid : String) : PerfMetric :=
  { mtype := "CLS", value := clsValue entries, timestamp := now, sessionId := sid }

/-! ## Transport requests and headers

The current `src/tracker.js` builds fixed JSON headers for both
endpoints; the bearer-token variant of the collector (the repository
file embedding `sendEvents` with a `bearerToken` config option,
src/unnamed/part_000 lines 283-305) adds an `Authorization` header to
the fetch branch of `sendEvents` when a token is configured.  The
metrics endpoint request is built by `sendPerformanceMetrics`
(tracker.js lines 200-206) with fixed headers. -/

structure HttpRequest where
  url : String
  method : String
  headers : List (String × String)
  body : String
deriving DecidableEq, Repr

/-- Headers of the fetch branch of `sendEvents` in the bearer-token
variant (src/unnamed/part_000 lines 285-292): always
`Content-Type: application/json`, plus `Authorization: Bearer <token>`
when a truthy token is configured. -/
def bearerEventHeaders (bearerToken : Option String) :
    List (String × String) :=
  let base := [("Content-Type", "application/json")]
  match bearerToken with
  | some t => if t = "" then base else base ++ [("Authorization", "Bearer " ++ t)]
  | none => base

/-- The fetch request of `sendEvents` in the bearer-token variant
(src/unnamed/part_000 lines 294-298). -/
def sendEventsFetchRequest (endpoint : String) (bearerToken : Option String)
    (body : String) : HttpRequest :=
  { url := endpoint, method := "POST"
    headers := bearerEventHeaders bearerToken, body := body }

/-- The fetch request of `sendPerformanceMetrics`
(src/tracker.js lines 200-206): fixed JSON headers, no bearer token. -/
def sendMetricsFetchRequest (metricsEndpoint : String) (body : String) :
    HttpRequest :=
  { url := metricsEndpoint, method := "POST"
    headers := [("Content-Type", "application/json")], body := body }

/-! ## Sample values for concrete instantiations -/

def sampleEvent : Event := Event.custom "a" "" "s" 0

def sampleClick : Event := Event.click "c" "s"

def sampleClick2 : Event := Event.click "d" "s"

def sampleCLS : PerfMetric :=
  { mtype := "CLS", value := 0, timestamp := 0, sessionId := "s" }

def sampleLCP : PerfMetric :=
  { mtype := "LCP", value := 123, timestamp := 0, sessionId := "s" }

def sampleEnvA : Env :=
  { userAgent := "ua", language := "en", hostname := "h", pathname := "/a" }

def sampleInfoA : BrowserInfo :=
  { userAgent := "ua", language := "en", domain := "h", path := "/a",
    timestamp := 0 }

def sampleInfoB : BrowserInfo :=
  { userAgent := "ua", language := "en", domain := "h", path := "/b",
    timestamp := 0 }

def sampleNavA : NavState :=
  { currentPath := "/a", browserInfo := sampleInfoA, observerGen := 5 }

def sampleNavB : NavState :=
  { currentPath := "/b", browserInfo := sampleInfoB, observerGen := 5 }

/-! ## Helper lemmas -/

lemma pushEventsInFlight_spec (b : List Event) (es : List Event) :
    ∀ l : List Event,
      pushEventsInFlight { batch := b, live := l } es
        = { batch := b, live := l ++ es } := by
  induction es with
  | nil => intro l; simp [pushEventsInFlight]
  | cons e t ih =>
      intro l
      have h1 : pushEventInFlight { batch := b, live := l } e
          = { batch := b, live := l ++ [e] } := rfl
      calc pushEventsInFlight { batch := b, live := l } (e :: t)
          = pushEventsInFlight { batch := b, live := l ++ [e] } t := by
            simp [pushEventsInFlight, h1]
        _ = { batch := b, live := (l ++ [e]) ++ t } := ih (l ++ [e])
        _ = { batch := b, live := l ++ e :: t } := by simp

lemma pushMetricsInFlight_spec (b : List PerfMetric) (ms : List PerfMetric) :
    ∀ l : List PerfMetric,
      pushMetricsInFlight { batch := b, live := l } ms
        = { batch := b, live := l ++ ms } := by
  induction ms with
  | nil => intro l; simp [pushMetricsInFlight]
  | cons m t ih =>
      intro l
      have h1 : pushMetricInFlight { batch := b, live := l } m
          = { batch := b, live := l ++ [m] } := rfl
      calc pushMetricsInFlight { batch := b, live := l } (m :: t)
          = pushMetricsInFlight { batch := b, live := l ++ [m] } t := by
            simp [pushMetricsInFlight, h1]
        _ = { batch := b, live := (l ++ [m]) ++ t } := ih (l ++ [m])
        _ = { batch := b, live := l ++ m :: t } := by simp

lemma sendEventsRun_eq_settle (q a : List Event) (o : SendOutcome)
    (h : q ≠ []) :
    sendEventsRun q a o = sendEventsSettle { batch := q, live := a } o := by
  have hlen : ¬ q.length = 0 := by simpa using h
  unfold sendEventsRun
  rw [if_neg hlen]
  have : pushEventsInFlight (sendEventsSwap q) a
      = { batch := q, live := a } := by
    unfold sendEventsSwap
    simpa using pushEventsInFlight_spec q a []
  rw [this]

lemma sendPerformanceMetricsRun_eq_settle (q a : List PerfMetric)
    (o : MetricOutcome) (h : q ≠ []) :
    sendPerformanceMetricsRun q a o
      = sendPerformanceMetricsSettle { batch := q, live := a } o := by
  have hlen : ¬ q.length = 0 := by simpa using h
  unfold sendPerformanceMetricsRun
  rw [if_neg hlen]
  have : pushMetricsInFlight (sendPerformanceMetricsSwap q) a
      = { batch := q, live := a } := by
    unfold sendPerformanceMetricsSwap
    simpa using pushMetricsInFlight_spec q a []
  rw [this]

lemma trackAll_below_batch (cfg : Config) (sid : String) :
    ∀ (calls : List TrackCall) (q : List Event),
      q.length + calls.length < cfg.batchSize →
      trackAll cfg sid calls q = q ++ calls.map (callEvent sid) := by
  intro calls
  induction calls with
  | nil => intro q _; simp [trackAll]
  | cons c t ih =>
      intro q h
      simp only [List.length_cons] at h
      have hstep : trackStep cfg sid q c = q ++ [callEvent sid c] := by
        cases c with
        | ev n d tm =>
            simp only [trackStep, trackEvent, callEvent]
            rw [if_neg]
            simp only [List.length_append, List.length_cons,
              List.length_nil, List.length_singleton]
            omega
        | click cd =>
            simp only [trackStep, trackClick, callEvent]
            rw [if_neg]
            simp only [List.length_append, List.length_cons,
              List.length_nil, List.length_singleton]
            omega
      have hrec : trackAll cfg sid t (q ++ [callEvent sid c])
          = (q ++ [callEvent sid c]) ++ t.map (callEvent sid) := by
        apply ih
        simp only [List.length_append, List.length_singleton]
        omega
      calc trackAll cfg sid (c :: t) q
          = trackAll cfg sid t (trackStep cfg sid q c) := by
            simp [trackAll]
        _ = trackAll cfg sid t (q ++ [callEvent sid c]) := by rw [hstep]
        _ = (q ++ [callEvent sid c]) ++ t.map (callEvent sid) := hrec
        _ = q ++ (c :: t).map (callEvent sid) := by simp

lemma clsValue_foldl (l : List LayoutShiftEntry) :
    ∀ a : ℚ,
      l.foldl (fun acc e => if e.hadRecentInput then acc else acc + e.value) a
        = a + ((l.filter fun e => ! e.hadRecentInput).map
            LayoutShiftEntry.value).sum := by
  induction l with
  | nil => intro a; simp
  | cons e t ih =>
      intro a
      by_cases h : e.hadRecentInput
      · simp [h, ih]
      · simp [h, ih, add_assoc]

/-! ## Claim theorems -/

/-- C1 (counterexample): the claim says a failed batch is prepended
exactly once, as `batch ++ queue`, with no event duplicated, for all
three failure modes.  At the concrete one-event batch below, a non-ok
response (and likewise a beacon failure) makes `sendEvents` requeue the
batch twice — once at the failure check and once in the catch handler —
so the final queue is `[e, e]`, not `[e]`; `sendPerformanceMetrics`
behaves the same on a non-ok response. -/
theorem claim_C1_counterexample :
    sendEventsRun [sampleEvent] [] SendOutcome.fetchNotOk
        ≠ [sampleEvent] ++ [] ∧
    sendEventsRun [sampleEvent] [] SendOutcome.fetchNotOk
        = [sampleEvent, sampleEvent] ∧
    sendEventsRun [sampleEvent] [] SendOutcome.beaconFailure
        = [sampleEvent, sampleEvent] ∧
    sendPerformanceMetricsRun [sampleLCP] [] MetricOutcome.fetchNotOk
        = [sampleLCP, sampleLCP] := by
  refine ⟨?_, ?_, ?_, ?_⟩ <;> decide

/-- C1 (amended): for every non-empty batch taken by `sendEvents` and
every non-empty batch taken by `sendPerformanceMetrics`, with arrivals
landing during the in-flight send: if the transport call throws
(rejected fetch) the failed batch is prepended exactly once, as
`batch ++ queue`, preserving order ahead of newly arrived items with
nothing lost or duplicated; if the beacon returns failure or the
response is not successful, the batch is prepended twice
(`batch ++ batch ++ queue`), so nothing is lost but every item of the
batch is duplicated. -/
theorem claim_C1_amended (q a : List Event) (qm am : List PerfMetric)
    (hq : q ≠ []) (hm : qm ≠ []) :
    sendEventsRun q a SendOutcome.fetchRejected = q ++ a ∧
    sendEventsRun q a SendOutcome.fetchNotOk = q ++ (q ++ a) ∧
    sendEventsRun q a SendOutcome.beaconFailure = q ++ (q ++ a) ∧
    sendPerformanceMetricsRun qm am MetricOutcome.fetchRejected = qm ++ am ∧
    sendPerformanceMetricsRun qm am MetricOutcome.fetchNotOk
      = qm ++ (qm ++ am) := by
  refine ⟨?_, ?_, ?_, ?_, ?_⟩
  · rw [sendEventsRun_eq_settle q a _ hq]; rfl
  · rw [sendEventsRun_eq_settle q a _ hq]; rfl
  · rw [sendEventsRun_eq_settle q a _ hq]; rfl
  · rw [sendPerformanceMetricsRun_eq_settle qm am _ hm]; rfl
  · rw [sendPerformanceMetricsRun_eq_settle qm am _ hm]; rfl

/-- C1 witness: the amended statement at a concrete batch, arrival and
metric batch. -/
theorem claim_C1_amended_witness :
    sendEventsRun [sampleClick] [sampleClick2] SendOutcome.fetchRejected
      = [sampleClick] ++ [sampleClick2] ∧
    sendEventsRun [sampleClick] [sampleClick2] SendOutcome.fetchNotOk
      = [sampleClick] ++ ([sampleClick] ++ [sampleClick2]) ∧
    sendEventsRun [sampleClick] [sampleClick2] SendOutcome.beaconFailure
      = [sampleClick] ++ ([sampleClick] ++ [sampleClick2]) ∧
    sendPerformanceMetricsRun [sampleCLS] [] MetricOutcome.fetchRejected
      = [sampleCLS] ++ [] ∧
    sendPerformanceMetricsRun [sampleCLS] [] MetricOutcome.fetchNotOk
      = [sampleCLS] ++ ([sampleCLS] ++ []) :=
  claim_C1_amended [sampleClick] [sampleClick2] [sampleCLS] []
    (by decide) (by decide)

/-- C2: on every non-empty queue, `sendEvents` and
`sendPerformanceMetrics` reset the live queue to empty before the
transport attempt (the swap takes the whole queue as the in-flight
batch and leaves an empty live queue); tracking calls arriving while
the send is in flight append to the new empty queue, never into the
in-flight batch, and on a successful send the final queue is exactly
the arrivals — nothing lost, nothing interleaved. -/
theorem claim_C2 (q a : List Event) (qm am : List PerfMetric)
    (hq : q ≠ []) (hm : qm ≠ []) :
    (sendEventsSwap q).live = [] ∧
    (sendEventsSwap q).batch = q ∧
    pushEventsInFlight (sendEventsSwap q) a = { batch := q, live := a } ∧
    sendEventsRun q a SendOutcome.fetchOk = a ∧
    sendEventsRun q a SendOutcome.beaconSuccess = a ∧
    (sendPerformanceMetricsSwap qm).live = [] ∧
    (sendPerformanceMetricsSwap qm).batch = qm ∧
    pushMetricsInFlight (sendPerformanceMetricsSwap qm) am
      = { batch := qm, live := am } ∧
    sendPerformanceMetricsRun qm am MetricOutcome.fetchOk = am := by
  refine ⟨rfl, rfl, ?_, ?_, ?_, rfl, rfl, ?_, ?_⟩
  · unfold sendEventsSwap
    simpa using pushEventsInFlight_spec q a []
  · rw [sendEventsRun_eq_settle q a _ hq]; rfl
  · rw [sendEventsRun_eq_settle q a _ hq]; rfl
  · unfold sendPerformanceMetricsSwap
    simpa using pushMetricsInFlight_spec qm am []
  · rw [sendPerformanceMetricsRun_eq_settle qm am _ hm]; rfl

/-- C2 witness: the swap and success behavior at concrete queues. -/
theorem claim_C2_witness :
    (sendEventsSwap [sampleClick]).live = [] ∧
    (sendEventsSwap [sampleClick]).batch = [sampleClick] ∧
    pushEventsInFlight (sendEventsSwap [sampleClick]) [sampleClick2]
      = { batch := [sampleClick], live := [sampleClick2] } ∧
    sendEventsRun [sampleClick] [sampleClick2] SendOutcome.fetchOk
      = [sampleClick2] ∧
    sendEventsRun [sampleClick] [sampleClick2] SendOutcome.beaconSuccess
      = [sampleClick2] ∧
    (sendPerformanceMetricsSwap [sampleCLS]).live = [] ∧
    (sendPerformanceMetricsSwap [sampleCLS]).batch = [sampleCLS] ∧
    pushMetricsInFlight (sendPerformanceMetricsSwap [sampleCLS]) []
      = { batch := [sampleCLS], live := [] } ∧
    sendPerformanceMetricsRun [sampleCLS] [] MetricOutcome.fetchOk = [] :=
  claim_C2 [sampleClick] [sampleClick2] [sampleCLS] []
    (by decide) (by decide)

/-- C3: with a (non-empty) bearer token configured, the non-beacon send
of the event queue is a POST whose headers carry
`Authorization: Bearer <token>` (alongside the JSON content type),
while the request `sendPerformanceMetrics` makes to the metrics
endpoint never carries an `Authorization` header — the token applies
only to events. -/
theorem claim_C3 (endpoint metricsEndpoint body : String) (t : String)
    (h : t ≠ "") :
    (sendEventsFetchRequest endpoint (some t) body).method = "POST" ∧
    ("Content-Type", "application/json")
        ∈ (sendEventsFetchRequest endpoint (some t) body).headers ∧
    ("Authorization", "Bearer " ++ t)
        ∈ (sendEventsFetchRequest endpoint (some t) body).headers ∧
    (sendMetricsFetchRequest metricsEndpoint body).method = "POST" ∧
    (∀ v, ("Authorization", v)
        ∉ (sendMetricsFetchRequest metricsEndpoint body).headers) := by
  refine ⟨rfl, ?_, ?_, rfl, ?_⟩
  · simp [sendEventsFetchRequest, bearerEventHeaders, h]
  · simp [sendEventsFetchRequest, bearerEventHeaders, h]
  · intro v hv
    simp only [sendMetricsFetchRequest, List.mem_singleton] at hv
    have : "Authorization" = "Content-Type" := congrArg Prod.fst hv
    exact absurd this (by decide)

/-- C3 witness: the header shapes at a concrete token. -/
theorem claim_C3_witness :
    (sendEventsFetchRequest "/api/track" (some "tok") "b").method = "POST" ∧
    ("Content-Type", "application/json")
        ∈ (sendEventsFetchRequest "/api/track" (some "tok") "b").headers ∧
    ("Authorization", "Bearer " ++ "tok")
        ∈ (sendEventsFetchRequest "/api/track" (some "tok") "b").headers ∧
    (sendMetricsFetchRequest "/api/metrics" "b").method = "POST" ∧
    (∀ v, ("Authorization", v)
        ∉ (sendMetricsFetchRequest "/api/metrics" "b").headers) :=
  claim_C3 "/api/track" "/api/metrics" "b" "tok" (by decide)

/-- C4: a truthy injected `sessionId` is persisted together with a
fresh timestamp and returned unconditionally as the collector's
session id; the result does not depend on `sessionTimeout` in any way
(injection bypasses the expiry comparison entirely). -/
theorem claim_C4 (raw : RawConfig) (sid : String) (st : Store) (now : Nat)
    (freshId : String) (t1 t2 : Nat) (h : sid ≠ "")
    (hraw : raw.sessionId = some sid) :
    (mkConfig raw).sessionId = some sid ∧
    getOrCreateSessionId (mkConfig raw).sessionId
        (mkConfig raw).sessionTimeout st now freshId
      = (sid, persistSession st sid now) ∧
    getOrCreateSessionId (some sid) t1 st now freshId
      = getOrCreateSessionId (some sid) t2 st now freshId := by
  have hcfg : (mkConfig raw).sessionId = some sid := by
    simp [mkConfig, jsOrNull, hraw, h]
  refine ⟨hcfg, ?_, ?_⟩
  · rw [hcfg]
    simp [getOrCreateSessionId, h]
  · simp [getOrCreateSessionId, h]

/-- C4 witness: injection at a concrete configuration. -/
theorem claim_C4_witness :
    (mkConfig { sessionId := some "sid-1" }).sessionId = some "sid-1" ∧
    getOrCreateSessionId (mkConfig { sessionId := some "sid-1" }).sessionId
        (mkConfig { sessionId := some "sid-1" }).sessionTimeout
        { sessionId := some "old", sessionTimestamp := some 0,
          colorIdentifier := none } 5 "fresh"
      = ("sid-1", { sessionId := some "sid-1", sessionTimestamp := some 5,
                    colorIdentifier := none }) ∧
    getOrCreateSessionId (some "sid-1") 1
        { sessionId := some "old", sessionTimestamp := some 0,
          colorIdentifier := none } 5 "fresh"
      = getOrCreateSessionId (some "sid-1") 999999
          { sessionId := some "old", sessionTimestamp := some 0,
            colorIdentifier := none } 5 "fresh" :=
  claim_C4 { sessionId := some "sid-1" } "sid-1"
    { sessionId := some "old", sessionTimestamp := some 0,
      colorIdentifier := none } 5 "fresh" 1 999999
    (by decide) rfl

/-- C5: `resetSession` removes the persisted session id and timestamp
and re-runs the derivation; absent injection the derivation returns the
fresh generated id and persists it with a fresh timestamp (so, the
generated UUID being fresh, the session id is new), and
`trackConversion` performs exactly this reset after appending the
`conversion` event (which still carries the pre-reset session id). -/
theorem claim_C5 (cfg : Config) (cs : CollectorState) (data : String)
    (now : Nat) (freshId : String) (o : SendOutcome)
    (hinj : cfg.sessionId = none) :
    resetSession cfg.sessionId cfg.sessionTimeout cs.store now freshId
      = getOrCreateSessionId cfg.sessionId cfg.sessionTimeout
          { cs.store with sessionId := none, sessionTimestamp := none }
          now freshId ∧
    resetSession cfg.sessionId cfg.sessionTimeout cs.store now freshId
      = (freshId, persistSession cs.store freshId now) ∧
    (∀ old, freshId ≠ old →
        (resetSession cfg.sessionId cfg.sessionTimeout cs.store now
            freshId).1 ≠ old) ∧
    (trackConversion cfg cs data now freshId o).sessionId = freshId ∧
    (trackConversion cfg cs data now freshId o).store
      = persistSession cs.store freshId now ∧
    (cs.events.length + 1 < cfg.batchSize →
        (trackConversion cfg cs data now freshId o).events
          = cs.events ++ [Event.custom "conversion" data cs.sessionId now]) := by
  have hreset : resetSession cfg.sessionId cfg.sessionTimeout cs.store now
      freshId
      = (freshId, persistSession cs.store freshId now) := by
    simp [resetSession, getOrCreateSessionId, getOrCreateFromStore,
      persistSession, hinj]
  refine ⟨rfl, hreset, ?_, ?_, ?_, ?_⟩
  · intro old hne
    rw [hreset]
    exact hne
  · simp [trackConversion, hreset]
  · simp [trackConversion, hreset]
  · intro hlen
    simp only [trackConversion, trackEvent]
    rw [if_neg]
    simp only [List.length_append, List.length_singleton]
    omega

/-- C5 witness: reset and conversion at concrete state. -/
theorem claim_C5_witness :
    resetSession (mkConfig { }).sessionId (mkConfig { }).sessionTimeout
        { sessionId := some "old", sessionTimestamp := some 3,
          colorIdentifier := some "c" } 9 "fresh"
      = ("fresh", { sessionId := some "fresh", sessionTimestamp := some 9,
                    colorIdentifier := some "c" }) ∧
    (trackConversion (mkConfig { })
        { events := [], sessionId := "old",
          store := { sessionId := some "old", sessionTimestamp := some 3,
                     colorIdentifier := some "c" } }
        "d" 9 "fresh" SendOutcome.fetchOk).sessionId = "fresh" ∧
    (trackConversion (mkConfig { })
        { events := [], sessionId := "old",
          store := { sessionId := some "old", sessionTimestamp := some 3,
                     colorIdentifier := some "c" } }
        "d" 9 "fresh" SendOutcome.fetchOk).events
      = [Event.custom "conversion" "d" "old" 9] := by
  have h := claim_C5 (mkConfig { })
    { events := [], sessionId := "old",
      store := { sessionId := some "old", sessionTimestamp := some 3,
                 colorIdentifier := some "c" } }
    "d" 9 "fresh" SendOutcome.fetchOk rfl
  exact ⟨h.2.1, h.2.2.2.1, by simpa using h.2.2.2.2.2 (by decide)⟩

/-- C6: absent injection, a stored session whose timestamp is at least
`sessionTimeout` old is regenerated — the derivation returns the fresh
id (different from the stored one) and persists it with a fresh
timestamp, and the periodic expiration sweep resets the session the
same way; a stored session strictly younger than `sessionTimeout` is
reused unchanged by the derivation, and the sweep leaves the session
and store untouched. -/
theorem claim_C6 (sessionTimeout now ts : Nat)
    (sid freshId curSid : String) (color : Option String)
    (hsid : sid ≠ "") (hfresh : freshId ≠ sid) :
    ((sessionTimeout : Int) ≤ (now : Int) - (ts : Int) →
      getOrCreateSessionId none sessionTimeout
          { sessionId := some sid, sessionTimestamp := some ts,
            colorIdentifier := color } now freshId
        = (freshId, { sessionId := some freshId,
                      sessionTimestamp := some now,
                      colorIdentifier := color }) ∧
      (getOrCreateSessionId none sessionTimeout
          { sessionId := some sid, sessionTimestamp := some ts,
            colorIdentifier := color } now freshId).1 ≠ sid ∧
      checkSessionExpiration none sessionTimeout curSid
          { sessionId := some sid, sessionTimestamp := some ts,
            colorIdentifier := color } now freshId
        = (freshId, { sessionId := some freshId,
                      sessionTimestamp := some now,
                      colorIdentifier := color })) ∧
    ((now : Int) - (ts : Int) < (sessionTimeout : Int) →
      getOrCreateSessionId none sessionTimeout
          { sessionId := some sid, sessionTimestamp := some ts,
            colorIdentifier := color } now freshId
        = (sid, { sessionId := some sid, sessionTimestamp := some ts,
                  colorIdentifier := color }) ∧
      checkSessionExpiration none sessionTimeout curSid
          { sessionId := some sid, sessionTimestamp := some ts,
            colorIdentifier := color } now freshId
        = (curSid, { sessionId := some sid, sessionTimestamp := some ts,
                     colorIdentifier := color })) := by
  constructor
  · intro hexp
    have hlt : ¬ ((now : Int) - (ts : Int) < (sessionTimeout : Int)) := by
      omega
    refine ⟨?_, ?_, ?_⟩
    · simp [getOrCreateSessionId, getOrCreateFromStore, persistSession,
        hsid, hlt]
    · simp [getOrCreateSessionId, getOrCreateFromStore, persistSession,
        hsid, hlt, hfresh]
    · simp [checkSessionExpiration, resetSession, getOrCreateSessionId,
        getOrCreateFromStore, persistSession, hexp]
  · intro hyoung
    have hnexp : ¬ ((sessionTimeout : Int) ≤ (now : Int) - (ts : Int)) := by
      omega
    constructor
    · simp [getOrCreateSessionId, getOrCreateFromStore, hsid, hyoung]
    · simp [checkSessionExpiration, hnexp]

/-- C6 witness: expiry and reuse at concrete timestamps (timeout 1000,
stored timestamp 500 resp. 1500, current time 2000). -/
theorem claim_C6_witness :
    (getOrCreateSessionId none 1000
        { sessionId := some "old", sessionTimestamp := some 500,
          colorIdentifier := none } 2000 "fresh"
      = ("fresh", { sessionId := some "fresh", sessionTimestamp := some 2000,
                    colorIdentifier := none })) ∧
    (checkSessionExpiration none 1000 "cur"
        { sessionId := some "old", sessionTimestamp := some 500,
          colorIdentifier := none } 2000 "fresh"
      = ("fresh", { sessionId := some "fresh", sessionTimestamp := some 2000,
                    colorIdentifier := none })) ∧
    (getOrCreateSessionId none 1000
        { sessionId := some "old", sessionTimestamp := some 1500,
          colorIdentifier := none } 2000 "fresh"
      = ("old", { sessionId := some "old", sessionTimestamp := some 1500,
                  colorIdentifier := none })) ∧
    (checkSessionExpiration none 1000 "cur"
        { sessionId := some "old", sessionTimestamp := some 1500,
          colorIdentifier := none } 2000 "fresh"
      = ("cur", { sessionId := some "old", sessionTimestamp := some 1500,
                  colorIdentifier := none })) := by
  have h1 := claim_C6 1000 2000 500 "old" "fresh" "cur" none
    (by decide) (by decide)
  have h2 := claim_C6 1000 2000 1500 "old" "fresh" "cur" none
    (by decide) (by decide)
  refine ⟨(h1.1 (by decide)).1, (h1.1 (by decide)).2.2,
    (h2.2 (by decide)).1, (h2.2 (by decide)).2⟩

/-- C7: a sequence of fewer than `batchSize` tracking calls starting
from an empty queue leaves the queue holding exactly those events in
arrival order (so its length is the number of calls); the append that
makes the length reach `batchSize` triggers the flush — the threshold
is checked after the append — and after a successful send the queue is
empty. -/
theorem claim_C7 (cfg : Config) (sid : String) :
    (∀ calls : List TrackCall, calls.length < cfg.batchSize →
        trackAll cfg sid calls [] = calls.map (callEvent sid)) ∧
    (∀ (q : List Event) (name data : String) (now : Nat),
        q.length + 1 = cfg.batchSize →
        trackEvent cfg sid now q name data SendOutcome.fetchOk = []) ∧
    (∀ (q : List Event) (clickData : String),
        q.length + 1 = cfg.batchSize →
        trackClick cfg sid q clickData SendOutcome.fetchOk = []) := by
  refine ⟨?_, ?_, ?_⟩
  · intro calls hlen
    have h := trackAll_below_batch cfg sid calls []
    simp only [List.length_nil, Nat.zero_add] at h
    simpa using h hlen
  · intro q name data now hlen
    have hq : (q ++ [Event.custom name data sid now]).length = cfg.batchSize := by
      simp only [List.length_append, List.length_singleton]
      omega
    have hne : q ++ [Event.custom name data sid now] ≠ [] := by
      simp
    simp only [trackEvent]
    rw [if_pos (le_of_eq hq.symm)]
    rw [sendEventsRun_eq_settle _ [] _ hne]
    rfl
  · intro q clickData hlen
    have hq : (q ++ [Event.click clickData sid]).length = cfg.batchSize := by
      simp only [List.length_append, List.length_singleton]
      omega
    have hne : q ++ [Event.click clickData sid] ≠ [] := by
      simp
    simp only [trackClick]
    rw [if_pos (le_of_eq hq.symm)]
    rw [sendEventsRun_eq_settle _ [] _ hne]
    rfl

/-- C7 witness: two calls under the default batch size of 10 queue in
order; a tenth append flushes and a successful send empties the
queue. -/
theorem claim_C7_witness :
    trackAll (mkConfig { }) "s" [TrackCall.ev "a" "" 1, TrackCall.click "c"] []
      = [Event.custom "a" "" "s" 1, Event.click "c" "s"] ∧
    trackEvent (mkConfig { }) "s" 2 (List.replicate 9 sampleClick) "b" ""
        SendOutcome.fetchOk = [] ∧
    trackClick (mkConfig { }) "s" (List.replicate 9 sampleClick) "d"
        SendOutcome.fetchOk = [] := by
  have h := claim_C7 (mkConfig { }) "s"
  refine ⟨?_, ?_, ?_⟩
  · exact h.1 [TrackCall.ev "a" "" 1, TrackCall.click "c"] (by decide)
  · exact h.2.1 (List.replicate 9 sampleClick) "b" "" 2 (by decide)
  · exact h.2.2 (List.replicate 9 sampleClick) "d" (by decide)

/-- C8: the metric the CLS observer callback emits (it is emitted on
every invocation) has type `CLS` and value equal to the sum of the
`value` fields of exactly those layout-shift entries whose
`hadRecentInput` is false; in particular when no entry qualifies the
value is 0 and a metric is still produced. -/
theorem claim_C8 (entries : List LayoutShiftEntry) (now : Nat)
    (sid : String) :
    (clsCallbackMetric entries now sid).mtype = "CLS" ∧
    (clsCallbackMetric entries now sid).value
      = ((entries.filter fun e => ! e.hadRecentInput).map
          LayoutShiftEntry.value).sum ∧
    ((entries.filter fun e => ! e.hadRecentInput) = [] →
        (clsCallbackMetric entries now sid).value = 0) := by
  have hval : (clsCallbackMetric entries now sid).value
      = ((entries.filter fun e => ! e.hadRecentInput).map
          LayoutShiftEntry.value).sum := by
    simp only [clsCallbackMetric, clsValue]
    rw [clsValue_foldl entries 0]
    simp
  refine ⟨rfl, hval, ?_⟩
  intro hnone
  rw [hval, hnone]
  simp

/-- C8 witness: the spec's example batch
`[{value: 0.1, hadRecentInput: true}, {value: 0.05, hadRecentInput: false}]`
yields CLS value 0.05 = 1/20, and a batch whose sole entry had recent
input yields an emitted value of 0. -/
theorem claim_C8_witness :
    (clsCallbackMetric [{ value := 1/10, hadRecentInput := true },
        { value := 1/20, hadRecentInput := false }] 0 "s").value = 1/20 ∧
    (clsCallbackMetric [{ value := 1/10, hadRecentInput := true }] 0
        "s").value = 0 := by
  constructor
  · have h := (claim_C8 [{ value := 1/10, hadRecentInput := true },
        { value := 1/20, hadRecentInput := false }] 0 "s").2.1
    rw [h]
    norm_num [List.filter]
  · exact (claim_C8 [{ value := 1/10, hadRecentInput := true }] 0 "s").2.2
      (by norm_num [List.filter])

/-- C9: `handlePathChange` is a no-op when the browser path equals the
stored `currentPath` (no snapshot refresh, no observer reset); when the
path differs it stores the new path, regenerates the context snapshot,
and bumps the observer generation exactly when performance metrics are
enabled; consequently running it twice against the same browser path
equals running it once — observers are reset at most once. -/
theorem claim_C9 (enabled : Bool) (env : Env) (now now2 : Nat)
    (st : NavState) :
    (env.pathname = st.currentPath → handlePathChange enabled env now st = st) ∧
    (env.pathname ≠ st.currentPath →
        handlePathChange enabled env now st
          = { currentPath := env.pathname
              browserInfo := getBrowserInfo env now
              observerGen := if enabled then st.observerGen + 1
                             else st.observerGen }) ∧
    handlePathChange enabled env now2 (handlePathChange enabled env now st)
      = handlePathChange enabled env now st := by
  refine ⟨?_, ?_, ?_⟩
  · intro heq
    simp [handlePathChange, heq]
  · intro hne
    simp [handlePathChange, hne, setupPerformanceObserver]
  · by_cases heq : env.pathname = st.currentPath
    · simp [handlePathChange, heq]
    · simp [handlePathChange, heq]

/-- C9 witness: concrete same-path and changed-path invocations. -/
theorem claim_C9_witness :
    handlePathChange true sampleEnvA 1 sampleNavA = sampleNavA ∧
    handlePathChange true sampleEnvA 1 sampleNavB
      = { currentPath := "/a", browserInfo := getBrowserInfo sampleEnvA 1,
          observerGen := 6 } := by
  constructor
  · exact (claim_C9 true sampleEnvA 1 1 sampleNavA).1 (by decide)
  · exact (claim_C9 true sampleEnvA 1 1 sampleNavB).2.1 (by decide)

/-- C10: for every option defaulted with JS `||` — endpoint,
metricsEndpoint, selector, dataAttribute, searchRequestIdAttribute,
sessionTimeout, batchSize, sendInterval — supplying the falsy value of
its type (0 for the numeric options, the empty string for the string
options) makes the constructor silently substitute the built-in
default (batchSize 0 becomes 10, sessionTimeout 0 becomes 30 minutes),
whereas `performanceMetricsEnabled` is disabled exactly when the
supplied value is the literal `false`. -/
theorem claim_C10 (c : RawConfig) :
    (mkConfig { c with endpoint := some "" }).endpoint = "/api/track" ∧
    (mkConfig { c with metricsEndpoint := some "" }).metricsEndpoint
      = "/api/metrics" ∧
    (mkConfig { c with selector := some "" }).selector = ".trackable-item" ∧
    (mkConfig { c with dataAttribute := some "" }).dataAttribute
      = "data-item-id" ∧
    (mkConfig { c with searchRequestIdAttribute := some "" }).searchRequestIdAttribute
      = "data-search-request-id" ∧
    (mkConfig { c with sessionTimeout := some 0 }).sessionTimeout
      = 30 * 60 * 1000 ∧
    (mkConfig { c with batchSize := some 0 }).batchSize = 10 ∧
    (mkConfig { c with sendInterval := some 0 }).sendInterval = 10000 ∧
    ((mkConfig c).performanceMetricsEnabled = false
      ↔ c.performanceMetricsEnabled = some false) := by
  refine ⟨?_, ?_, ?_, ?_, ?_, ?_, ?_, ?_, ?_⟩
  · simp [mkConfig, jsOrString]
  · simp [mkConfig, jsOrString]
  · simp [mkConfig, jsOrString]
  · simp [mkConfig, jsOrString]
  · simp [mkConfig, jsOrString]
  · simp [mkConfig, jsOrNat]
  · simp [mkConfig, jsOrNat]
  · simp [mkConfig, jsOrNat]
  · cases hp : c.performanceMetricsEnabled with
    | none => simp [mkConfig, jsNeqFalse, hp]
    | some b => cases b <;> simp [mkConfig, jsNeqFalse, hp]

end SBAC
